import Mathlib

/-!
# Verification of the OFW mock server core (`app.py`)

Shallow embedding of the Flask mock server's fixture store and
request-resolution logic.  JSON values are modelled by the inductive
`JVal`; Python dicts become insertion-ordered association lists; Python
truthiness is modelled by `JVal.truthy`; handler or load code paths that
raise an unhandled Python exception (HTTP 500) are modelled by `Option`
with `none` standing for the crash, never silently ignored.
-/

/-- A JSON value as produced by `json.load`.  JSON object keys are always
strings; the numbers appearing in the fixtures of interest are integers. -/
inductive JVal where
  | null
  | bool (b : Bool)
  | int (n : Int)
  | str (s : String)
  | arr (xs : List JVal)
  | obj (kvs : List (String × JVal))

mutual
def JVal.beq : JVal → JVal → Bool
  | .null, .null => true
  | .bool a, .bool b => a == b
  | .int a, .int b => a == b
  | .str a, .str b => a == b
  | .arr xs, .arr ys => beqArr xs ys
  | .obj xs, .obj ys => beqObj xs ys
  | _, _ => false
def beqArr : List JVal → List JVal → Bool
  | [], [] => true
  | x :: xs, y :: ys => JVal.beq x y && beqArr xs ys
  | _, _ => false
def beqObj : List (String × JVal) → List (String × JVal) → Bool
  | [], [] => true
  | (k, v) :: xs, (l, w) :: ys => k == l && JVal.beq v w && beqObj xs ys
  | _, _ => false
end

mutual
theorem JVal.beq_iff : ∀ (a b : JVal), (JVal.beq a b = true) ↔ a = b
  | .null, b => by cases b <;> simp [JVal.beq]
  | .bool a, b => by cases b <;> simp [JVal.beq]
  | .int a, b => by cases b <;> simp [JVal.beq]
  | .str a, b => by cases b <;> simp [JVal.beq]
  | .arr xs, b => by
      cases b <;> simp [JVal.beq]
      exact beqArr_iff xs _
  | .obj kvs, b => by
      cases b <;> simp [JVal.beq]
      exact beqObj_iff kvs _
theorem beqArr_iff : ∀ (xs ys : List JVal), (beqArr xs ys = true) ↔ xs = ys
  | [], ys => by cases ys <;> simp [beqArr]
  | x :: xs, [] => by simp [beqArr]
  | x :: xs, y :: ys => by
      simp [beqArr, JVal.beq_iff x y, beqArr_iff xs ys]
theorem beqObj_iff : ∀ (xs ys : List (String × JVal)), (beqObj xs ys = true) ↔ xs = ys
  | [], ys => by cases ys <;> simp [beqObj]
  | x :: xs, [] => by simp [beqObj]
  | (k, v) :: xs, (l, w) :: ys => by
      simp [beqObj, JVal.beq_iff v w, beqObj_iff xs ys]
end

instance : DecidableEq JVal := fun a b => decidable_of_iff _ (JVal.beq_iff a b)

namespace JVal

/-- Python truthiness of a JSON value (`if v:`). -/
def truthy : JVal → Bool
  | .null => false
  | .bool b => b
  | .int n => n != 0
  | .str s => s != ""
  | .arr xs => !xs.isEmpty
  | .obj kvs => !kvs.isEmpty

/-- Whether the value may be used as a Python dict key: only scalars are
hashable, lists and dicts raise `TypeError` when hashed. -/
def hashable : JVal → Bool
  | .arr _ => false
  | .obj _ => false
  | _ => true

end JVal

/-- Python `==` between JSON values as used for dict-key lookup and the
`msg.get('id') == message_id` test.  Python's numeric cross-type equality
makes `True == 1` and `False == 0`; every other cross-type comparison is
unequal, and same-type comparison is structural. -/
def pyEq (a b : JVal) : Bool :=
  match a, b with
  | .bool x, .int y => (if x then (1 : Int) else 0) == y
  | .int x, .bool y => x == (if y then (1 : Int) else 0)
  | x, y => JVal.beq x y

/-- Lookup in a JSON object's key/value list (`d[k]`, `k in d`). -/
def olookup (kvs : List (String × JVal)) (k : String) : Option JVal :=
  match kvs with
  | [] => none
  | (k', v) :: rest => if k' = k then some v else olookup rest k

/-- `d.get(k)` on a JSON object: `null` models Python `None` for a missing
key.  The source only applies `.get` to dicts (elsewhere Python raises). -/
def jget (v : JVal) (k : String) : JVal :=
  match v with
  | .obj kvs => (olookup kvs k).getD .null
  | _ => .null

/-- `d[k] = v` for a key already present: update in place, keeping the
key's position (Python dicts keep insertion order on value update). -/
def oset (kvs : List (String × JVal)) (k : String) (v : JVal) : List (String × JVal) :=
  match kvs with
  | [] => []
  | (k', v') :: rest => if k' = k then (k', v) :: rest else (k', v') :: oset rest k v

/-- Lookup in a Python dict with JSON-value keys (`d[k]`, `k in d`),
modelled as an insertion-ordered association list probed with `pyEq`. -/
def alookup (m : List (JVal × JVal)) (k : JVal) : Option JVal :=
  match m with
  | [] => none
  | (k', v) :: rest => if pyEq k' k then some v else alookup rest k

/-- `d[k] = v` on a Python dict with JSON-value keys: update the existing
entry in place, or append a new entry at the end (insertion order). -/
def ainsert (m : List (JVal × JVal)) (k : JVal) (v : JVal) : List (JVal × JVal) :=
  match m with
  | [] => [(k, v)]
  | (k', v') :: rest => if pyEq k' k then (k', v) :: rest else (k', v') :: ainsert rest k v

/-- Clamp one bound of a Python slice `a[i:j]` (step 1) into `[0, n]`:
negative indices count from the end, then both ends are clamped. -/
def pySliceIdx (n : Nat) (i : Int) : Nat :=
  if i < 0 then (i + n).toNat else min i.toNat n

/-- Python list slicing `a[start:stop]` with step 1: never raises, yields
the (possibly empty) clamped range. -/
def pySlice {α : Type} (xs : List α) (start stop : Int) : List α :=
  let s := pySliceIdx xs.length start
  let e := pySliceIdx xs.length stop
  (xs.drop s).take (e - s)

/-- The in-memory fixture store (`data_store` in `app.py`):
`folders`/`localstorage` start as `None`; `messages` maps a folder id to
the stored per-folder value; `full_messages` maps a message id to a full
message.  Both maps are Python dicts keyed by JSON values. -/
structure Store where
  folders : Option JVal
  messages : List (JVal × JVal)
  full_messages : List (JVal × JVal)
  localstorage : Option JVal
  deriving DecidableEq

/-- The initial `data_store`. -/
def emptyStore : Store := ⟨none, [], [], none⟩

/-- An HTTP response produced by a handler: status code and JSON body. -/
structure Resp where
  status : Nat
  body : JVal
  deriving DecidableEq

/-! ## Access Gate (`require_auth`, `app.py` lines 100-121) -/

/-- Outcome of the auth gate: pass the request through to the handler, or
short-circuit with a status code and error body. -/
inductive GateResult where
  | pass
  | reject (status : Nat) (body : JVal)
  deriving DecidableEq

def errBody (s : String) : JVal := .obj [("error", .str s)]

/-- Python `s.startswith(pre)`: prefix test on the code-point sequence. -/
def pyStartsWith (s pre : String) : Bool := pre.data.isPrefixOf s.data

/-- Python `s[n:]` on a string: drop the first `n` code points. -/
def pyStrDrop (s : String) (n : Nat) : String := String.mk (s.data.drop n)

/-- `require_auth`: the Bearer-token gate.  `auth_header` is the raw
`Authorization` header (absent → `none`), `strict_auth` models
`OFW_STRICT_AUTH == 'true'`, `auth_token` models `AUTH_TOKEN`.  Python's
`if not auth_header` also catches an empty header string. -/
def require_auth (auth_header : Option String) (strict_auth : Bool) (auth_token : String) :
    GateResult :=
  match auth_header with
  | none => .reject 401 (errBody "No Authorization header")
  | some h =>
    if h = "" then .reject 401 (errBody "No Authorization header")
    else if ¬ pyStartsWith h "Bearer " then .reject 401 (errBody "Invalid Authorization header format")
    else
      let token := pyStrDrop h 7
      if token != auth_token && strict_auth then .reject 401 (errBody "Invalid token")
      else .pass

/-! ## Folder Resolver (`get_folders`, `app.py` lines 176-215) -/

/-- The built-in default folder set returned when no folder fixture is
loaded (`app.py` lines 187-215). -/
def default_folders : JVal :=
  .obj [("systemFolders", .arr [
    .obj [("id", .int 1), ("name", .str "Inbox"), ("folderOrder", .int 1),
          ("totalMessageCount", .int 0), ("unreadMessageCount", .int 0),
          ("folderType", .str "INBOX")],
    .obj [("id", .int 2), ("name", .str "Action Items"), ("folderOrder", .int 2),
          ("totalMessageCount", .int 0), ("unreadMessageCount", .int 0),
          ("folderType", .str "ACTION_ITEMS")],
    .obj [("id", .int 3), ("name", .str "Notifications"), ("folderOrder", .int 3),
          ("totalMessageCount", .int 0), ("unreadMessageCount", .int 0),
          ("folderType", .str "SYSTEM_MESSAGES")]]),
   ("userFolders", .arr [])]

/-- `get_folders`: returns the loaded folder fixture when it is set and
truthy, the default set otherwise.  `include_counts` is computed from the
query string but never used afterwards. -/
def get_folders (store : Store) (include_counts : Bool) : JVal :=
  match store.folders with
  | some v => if v.truthy then v else default_folders
  | none => default_folders

/-! ## Message Resolver: listing (`get_messages`, `app.py` lines 218-262) -/

/-- The empty page returned when no folder id is given (or it is falsy) or
the folder has no entry (`app.py` lines 254-262). -/
def emptyPage (page : Int) : JVal :=
  .obj [("metadata", .obj [("page", .int page), ("count", .int 0),
                           ("first", .bool true), ("last", .bool true)]),
        ("data", .arr [])]

/-- Resolution of a stored per-folder value (`app.py` lines 231-251):
a dict with a `data` key is paginated by Python slicing (lists and strings
are the sliceable JSON values; any other `data` value raises `TypeError`,
modelled as `none`); anything else is the legacy shape, returned as-is. -/
def resolveFolderVal (md : JVal) (page size : Int) : Option JVal :=
  match md with
  | .obj kvs =>
    match olookup kvs "data" with
    | some dv =>
      match dv with
      | .arr all_msgs =>
          let start_idx := (page - 1) * size
          let end_idx := start_idx + size
          let page_msgs := pySlice all_msgs start_idx end_idx
          some (.obj [("metadata", .obj [("page", .int page),
                        ("count", .int (page_msgs.length : Int)),
                        ("first", .bool (decide (page = 1))),
                        ("last", .bool (decide (end_idx ≥ (all_msgs.length : Int))))]),
                      ("data", .arr page_msgs)])
      | .str s =>
          let start_idx := (page - 1) * size
          let end_idx := start_idx + size
          let page_chars := pySlice s.data start_idx end_idx
          some (.obj [("metadata", .obj [("page", .int page),
                        ("count", .int (page_chars.length : Int)),
                        ("first", .bool (decide (page = 1))),
                        ("last", .bool (decide (end_idx ≥ (s.length : Int))))]),
                      ("data", .str (String.mk page_chars))])
      | _ => none
    | none => some md
  | _ => some md

/-- `get_messages`: the message-list handler.  `folder_id` is the parsed
`folders` query parameter (`none` when absent or unparseable); Python's
`if folder_id and folder_id in data_store['messages']` treats the folder
id `0` as falsy.  The unused `sort`/`sort_direction` parameters are bound
exactly as in the source. -/
def get_messages (store : Store) (folder_id : Option Int) (page size : Int)
    (sort sort_direction : String) : Option JVal :=
  match folder_id with
  | none => some (emptyPage page)
  | some fid =>
    if fid = 0 then some (emptyPage page)
    else
      match alookup store.messages (.int fid) with
      | some md => resolveFolderVal md page size
      | none => some (emptyPage page)

/-! ## Message Resolver: single message (`get_message`, `app.py` 265-284) -/

/-- The synthesized mock body text for a message lacking one. -/
def mockBody (mid : Int) : String :=
  "This is a mock message body for message " ++ toString mid ++ "."

/-- `result = msg.copy()` followed by `result['body'] = ...` when the
`body` key is absent (`app.py` lines 279-281). -/
def withMockBody (kvs : List (String × JVal)) (mid : Int) : JVal :=
  match olookup kvs "body" with
  | some _ => .obj kvs
  | none => .obj (kvs ++ [("body", .str (mockBody mid))])

def notFoundBody : JVal := .obj [("error", .str "Message not found")]

/-- Scan one folder's `data` list for the first message whose `id` equals
`mid` (`app.py` lines 276-282).  `some none` = not found here, `some
(some r)` = found and post-processed, `none` = a non-dict element made
`msg.get` raise. -/
def scanMsgs (xs : List JVal) (mid : Int) : Option (Option JVal) :=
  match xs with
  | [] => some none
  | m :: rest =>
    match m with
    | .obj kvs =>
        if pyEq (jget m "id") (.int mid) then some (some (withMockBody kvs mid))
        else scanMsgs rest mid
    | _ => none

/-- The fallback scan over every folder entry (`app.py` lines 274-282):
only dict entries carrying a `data` key are searched; iterating a
non-list `data` value raises unless it is an empty string or empty dict
(which iterate to nothing). -/
def scanFolders (msgs : List (JVal × JVal)) (mid : Int) : Option (Option JVal) :=
  match msgs with
  | [] => some none
  | (_, v) :: rest =>
    match v with
    | .obj kvs =>
      match olookup kvs "data" with
      | some dv =>
        match dv with
        | .arr xs =>
          match scanMsgs xs mid with
          | none => none
          | some (some r) => some (some r)
          | some none => scanFolders rest mid
        | .str "" => scanFolders rest mid
        | .obj [] => scanFolders rest mid
        | _ => none
      | none => scanFolders rest mid
    | _ => scanFolders rest mid

/-- `get_message`: full-message fixture first, then the fallback scan,
then 404. -/
def get_message (store : Store) (message_id : Int) : Option Resp :=
  match alookup store.full_messages (.int message_id) with
  | some v => some ⟨200, v⟩
  | none =>
    match scanFolders store.messages message_id with
    | some (some r) => some ⟨200, r⟩
    | some none => some ⟨404, notFoundBody⟩
    | none => none

/-! ## Fixture Store loading (`load_data`, `app.py` lines 37-97) -/

/-- The data directory's five optional JSON source files, already parsed
(`json.load` failures are out of scope: the spec declares them fatal). -/
structure DataDir where
  folders_json : Option JVal
  messages_json : Option JVal
  all_messages_json : Option JVal
  full_message_json : Option JVal
  localstorage_json : Option JVal
  deriving DecidableEq

/-- `folders.json` (lines 44-48): present → replace `folders`. -/
def load_folders_step (content : Option JVal) (store : Store) : Store :=
  match content with
  | some v => { store with folders := some v }
  | none => store

/-- `messages.json` (lines 51-59): when `messages_data.get('data')` is
truthy, the whole export is stored under the `folder` attribute of the
first message of `data`; a falsy `data` stores nothing.  Crashes (`none`):
non-dict export, truthy non-list `data`, non-dict first element, or an
unhashable folder key. -/
def load_messages_step (content : Option JVal) (store : Store) : Option Store :=
  match content with
  | none => some store
  | some (.obj kvs) =>
    let d := (olookup kvs "data").getD .null
    if d.truthy then
      match d with
      | .arr (m :: _) =>
        match m with
        | .obj _ =>
          let fid := jget m "folder"
          if fid.hashable then
            some { store with messages := ainsert store.messages fid (.obj kvs) }
          else none
        | _ => none
      | _ => none
    else some store
  | some _ => none

/-- One iteration of the `all_messages.json` grouping loop (lines 68-73):
ensure a fresh `{'data': [], 'metadata': {}}` page exists for the
message's folder, then append the message to the entry's `data` list when
the entry is a dict (a dict entry without a list `data` raises). -/
def append_bulk_msg (store : Store) (m : JVal) : Option Store :=
  match m with
  | .obj _ =>
    let fid := jget m "folder"
    if fid.hashable then
      let store1 :=
        if (alookup store.messages fid).isNone then
          { store with
            messages := ainsert store.messages fid (.obj [("data", .arr []), ("metadata", .obj [])]) }
        else store
      match alookup store1.messages fid with
      | some (.obj kvs) =>
        match olookup kvs "data" with
        | some (.arr xs) =>
            some { store1 with
                   messages := ainsert store1.messages fid (.obj (oset kvs "data" (.arr (xs ++ [m])))) }
        | some _ => none
        | none => none
      | some _ => some store1
      | none => some store1
    else none
  | _ => none

def append_bulk_msgs (msgs : List JVal) (store : Store) : Option Store :=
  match msgs with
  | [] => some store
  | m :: rest => (append_bulk_msg store m).bind (append_bulk_msgs rest)

/-- `all_messages.json` (lines 62-74): a truthy list is folded through the
grouping loop; a falsy value loads nothing; a truthy non-list raises. -/
def load_all_messages_step (content : Option JVal) (store : Store) : Option Store :=
  match content with
  | none => some store
  | some v =>
    if v.truthy then
      match v with
      | .arr msgs => append_bulk_msgs msgs store
      | _ => none
    else some store

/-- `full_message.json` (lines 77-84): stored under the export's `id`
attribute when that is truthy (so a message with id `0` is dropped). -/
def load_full_message_step (content : Option JVal) (store : Store) : Option Store :=
  match content with
  | none => some store
  | some v =>
    match v with
    | .obj _ =>
      let mid := jget v "id"
      if mid.truthy then
        if mid.hashable then
          some { store with full_messages := ainsert store.full_messages mid v }
        else none
      else some store
    | _ => none

/-- `localstorage_data.json` (lines 87-91): present → replace. -/
def load_localstorage_step (content : Option JVal) (store : Store) : Store :=
  match content with
  | some v => { store with localstorage := some v }
  | none => store

/-- `load_data` (lines 37-97): the five ingestion steps in source order,
mutating the shared store; a crash in any step aborts the load. -/
def load_data (dir : DataDir) (store : Store) : Option Store :=
  (load_messages_step dir.messages_json (load_folders_step dir.folders_json store)).bind fun s2 =>
  (load_all_messages_step dir.all_messages_json s2).bind fun s3 =>
  (load_full_message_step dir.full_message_json s3).bind fun s4 =>
  some (load_localstorage_step dir.localstorage_json s4)

/-! ## Spec-side characterizations and example fixtures -/

/-- Spec-side array indexing helper for stating response properties. -/
def jitem (v : JVal) (i : Nat) : JVal :=
  match v with
  | .arr xs => xs.getD i .null
  | _ => .null

/-- A value holding a FolderSet per the data model: a JSON object carrying
both a `systemFolders` and a `userFolders` key. -/
def isFolderSet (v : JVal) : Prop :=
  ∃ kvs, v = .obj kvs ∧ (olookup kvs "systemFolders").isSome ∧ (olookup kvs "userFolders").isSome

/-- A well-formed message per the data model: a JSON object whose `id`
attribute, when present, is an integer. -/
def WFMsg (m : JVal) : Bool :=
  match m with
  | .obj mkvs =>
    match olookup mkvs "id" with
    | none => true
    | some (.int _) => true
    | some _ => false
  | _ => false

/-- A well-formed per-folder entry: when it is a mapping carrying a `data`
key, that key holds a sequence of well-formed messages (the page-container
shape of the data model); legacy-shaped entries are unconstrained. -/
def WFEntry (v : JVal) : Bool :=
  match v with
  | .obj kvs =>
    match olookup kvs "data" with
    | some (.arr xs) => xs.all WFMsg
    | some _ => false
    | none => true
  | _ => true

/-- Every per-folder entry of the store is well formed. -/
def WFStore (store : Store) : Bool := store.messages.all fun p => WFEntry p.2

/-- The messages held by paged folder entries (mappings with a `data`
sequence), concatenated in store order: exactly what the fallback scan of
`get_message` visits. -/
def pagedData : List (JVal × JVal) → List JVal
  | [] => []
  | (_, v) :: rest =>
    match v with
    | .obj kvs =>
      match olookup kvs "data" with
      | some (.arr xs) => xs ++ pagedData rest
      | _ => pagedData rest
    | _ => pagedData rest

/-- Spec-side match predicate: a message object whose `id` attribute is
the integer `mid`. -/
def specIdMatches (mid : Int) (m : JVal) : Bool :=
  match m with
  | .obj mkvs => decide (olookup mkvs "id" = some (.int mid))
  | _ => false

/-- Spec-side post-processing of a found message: a copy with a mock body
synthesized only when absent. -/
def specFound (mid : Int) (m : JVal) : JVal :=
  match m with
  | .obj mkvs => withMockBody mkvs mid
  | _ => m

/-- Example fixtures used by witnesses and counterexamples. -/
def exMsgA : JVal := .obj [("id", .int 11), ("folder", .int 7)]
def exMsgB : JVal := .obj [("id", .int 12), ("folder", .int 7), ("body", .str "captured body")]
def exMsgC : JVal := .obj [("id", .int 13), ("folder", .int 7)]
def exPage7 : JVal := .obj [("data", .arr [exMsgA, exMsgB, exMsgC]), ("metadata", .obj [])]
def exStore7 : Store := ⟨none, [(.int 7, exPage7)], [], none⟩
def exPage0 : JVal := .obj [("data", .arr [exMsgA])]
def exStore0 : Store := ⟨none, [(.int 0, exPage0)], [], none⟩
def exLegacyStore : Store :=
  ⟨none, [(.int 4, .obj [("items", .arr [exMsgA])]), (.int 5, .arr [exMsgB])], [], none⟩
def exBulkMsg : JVal := .obj [("folder", .int 7), ("id", .int 1)]
def exFullMsg : JVal := .obj [("id", .int 11), ("body", .str "full body")]
def exFullStore : Store := ⟨none, [(.int 7, exPage7)], [(.int 11, exFullMsg)], none⟩
def exBulkDir : DataDir := ⟨none, none, some (.arr [exBulkMsg]), none, none⟩
def exFolderSet : JVal :=
  .obj [("systemFolders", .arr [.obj [("id", .int 10)]]), ("userFolders", .arr [])]

/-! ## Theorems -/

/-- C9: for a fixed store, folder id, page and size, the message-list
response is independent of the `sort` and `sortDirection` parameters: the
handler binds them but never consults them. -/
theorem c9_sort_parameters_ignored (store : Store) (folder_id : Option Int)
    (page size : Int) (s1 d1 s2 d2 : String) :
    get_messages store folder_id page size s1 d1 = get_messages store folder_id page size s2 d2 :=
  rfl

/-- C5: the access gate rejects a missing `Authorization` header with 401,
rejects a header not prefixed with the Bearer scheme with 401, passes any
well-formed header when strict mode is off, and in strict mode passes a
well-formed header exactly when its token equals the configured one. -/
theorem c5_access_gate (h : Option String) (strict : Bool) (tok : String) :
    (h = none → require_auth h strict tok = .reject 401 (errBody "No Authorization header")) ∧
    (∀ s, h = some s → pyStartsWith s "Bearer " = false →
      ∃ b, require_auth h strict tok = .reject 401 b) ∧
    (∀ s, h = some s → pyStartsWith s "Bearer " = true → strict = false →
      require_auth h strict tok = .pass) ∧
    (∀ s, h = some s → pyStartsWith s "Bearer " = true → strict = true →
      (require_auth h strict tok = .pass ↔ pyStrDrop s 7 = tok)) := by
  refine ⟨fun h0 => by subst h0; rfl, ?_, ?_, ?_⟩
  · rintro s rfl hpre
    by_cases hse : s = ""
    · exact ⟨errBody "No Authorization header", by simp [require_auth, hse]⟩
    · exact ⟨errBody "Invalid Authorization header format", by simp [require_auth, hse, hpre]⟩
  · rintro s rfl hpre rfl
    have hse : s ≠ "" := by
      rintro rfl
      simp [pyStartsWith, List.isPrefixOf] at hpre
    simp [require_auth, hse, hpre]
  · rintro s rfl hpre rfl
    have hse : s ≠ "" := by
      rintro rfl
      simp [pyStartsWith, List.isPrefixOf] at hpre
    by_cases he : pyStrDrop s 7 = tok
    · simp [require_auth, hse, hpre, he]
    · simp [require_auth, hse, hpre, he]

/-- Witness for C5 at concrete headers and tokens. -/
theorem c5_access_gate_witness :
    require_auth none true "mock_auth_token_12345" =
      .reject 401 (errBody "No Authorization header") ∧
    (∃ b, require_auth (some "Token abc") true "mock_auth_token_12345" = .reject 401 b) ∧
    require_auth (some "Bearer anything") false "mock_auth_token_12345" = .pass ∧
    (require_auth (some "Bearer mock_auth_token_12345") true "mock_auth_token_12345" = .pass ↔
      pyStrDrop "Bearer mock_auth_token_12345" 7 = "mock_auth_token_12345") :=
  ⟨(c5_access_gate none true _).1 rfl,
   (c5_access_gate (some "Token abc") true _).2.1 _ rfl (by decide),
   (c5_access_gate (some "Bearer anything") false _).2.2.1 _ rfl (by decide) rfl,
   (c5_access_gate (some "Bearer mock_auth_token_12345") true _).2.2.2 _ rfl (by decide) rfl⟩

/-- C6: a loaded FolderSet is returned verbatim whatever the
`include_counts` flag; with none loaded the handler answers the fixed
default set: empty `userFolders` and exactly three system folders with
ids 1, 2, 3 named Inbox, Action Items and Notifications, each with
`folderOrder` equal to its id and zero total/unread counts. -/
theorem c6_folder_resolver (store : Store) (ic ic' : Bool) :
    (∀ v, store.folders = some v → isFolderSet v → get_folders store ic = v) ∧
    get_folders store ic = get_folders store ic' ∧
    (store.folders = none →
      jget (get_folders store ic) "userFolders" = .arr [] ∧
      ∃ f1 f2 f3, jget (get_folders store ic) "systemFolders" = .arr [f1, f2, f3] ∧
        jget f1 "id" = .int 1 ∧ jget f1 "name" = .str "Inbox" ∧
        jget f2 "id" = .int 2 ∧ jget f2 "name" = .str "Action Items" ∧
        jget f3 "id" = .int 3 ∧ jget f3 "name" = .str "Notifications" ∧
        ∀ f ∈ [f1, f2, f3],
          jget f "folderOrder" = jget f "id" ∧
          jget f "totalMessageCount" = .int 0 ∧ jget f "unreadMessageCount" = .int 0) := by
  refine ⟨?_, rfl, ?_⟩
  · rintro v hv ⟨kvs, rfl, hsys, husr⟩
    have hk : kvs ≠ [] := by
      rintro rfl
      simp [olookup] at hsys
    simp [get_folders, hv, JVal.truthy, hk]
  · intro h0
    have hg : get_folders store ic = default_folders := by simp [get_folders, h0]
    rw [hg]
    exact ⟨by decide,
      .obj [("id", .int 1), ("name", .str "Inbox"), ("folderOrder", .int 1),
            ("totalMessageCount", .int 0), ("unreadMessageCount", .int 0),
            ("folderType", .str "INBOX")],
      .obj [("id", .int 2), ("name", .str "Action Items"), ("folderOrder", .int 2),
            ("totalMessageCount", .int 0), ("unreadMessageCount", .int 0),
            ("folderType", .str "ACTION_ITEMS")],
      .obj [("id", .int 3), ("name", .str "Notifications"), ("folderOrder", .int 3),
            ("totalMessageCount", .int 0), ("unreadMessageCount", .int 0),
            ("folderType", .str "SYSTEM_MESSAGES")],
      by decide, by decide, by decide, by decide, by decide, by decide, by decide, by decide⟩

/-- Witness for C6: a loaded (odd-shaped but well-keyed) FolderSet is
echoed; an unloaded store yields the default set's observable facts. -/
theorem c6_folder_resolver_witness :
    get_folders ⟨some exFolderSet, [], [], none⟩ true = exFolderSet ∧
    jget (get_folders emptyStore false) "userFolders" = .arr [] := by
  constructor
  · exact (c6_folder_resolver ⟨some exFolderSet, [], [], none⟩ true true).1 exFolderSet rfl
      ⟨_, rfl, by decide, by decide⟩
  · exact ((c6_folder_resolver emptyStore false false).2.2 rfl).1

/-- C7: the single-folder export is stored under the `folder` attribute of
the first message of its `data` sequence, and nothing is stored when that
sequence is empty or absent. -/
theorem c7_single_folder_ingestion (store : Store) (kvs : List (String × JVal)) :
    (∀ m rest mkvs, olookup kvs "data" = some (.arr (m :: rest)) → m = .obj mkvs →
      (jget m "folder").hashable = true →
      load_messages_step (some (.obj kvs)) store =
        some { store with messages := ainsert store.messages (jget m "folder") (.obj kvs) }) ∧
    (olookup kvs "data" = some (.arr []) → load_messages_step (some (.obj kvs)) store = some store) ∧
    (olookup kvs "data" = none → load_messages_step (some (.obj kvs)) store = some store) := by
  refine ⟨?_, ?_, ?_⟩
  · intro m rest mkvs hdata hm hhash
    subst hm
    simp [load_messages_step, hdata, JVal.truthy, hhash]
  · intro hdata
    simp [load_messages_step, hdata, JVal.truthy]
  · intro hdata
    simp [load_messages_step, hdata, JVal.truthy]

/-- Witness for C7: a two-message export whose first message carries
`folder: 7` lands under key 7; an empty export stores nothing. -/
theorem c7_single_folder_ingestion_witness :
    load_messages_step (some (.obj [("data", .arr [exMsgA, exMsgB]), ("metadata", .obj [])]))
        emptyStore =
      some ⟨none, [(.int 7, .obj [("data", .arr [exMsgA, exMsgB]), ("metadata", .obj [])])],
        [], none⟩ ∧
    load_messages_step (some (.obj [("data", .arr [])])) emptyStore = some emptyStore := by
  constructor
  · exact (c7_single_folder_ingestion emptyStore _).1 exMsgA [exMsgB]
      [("id", .int 11), ("folder", .int 7)] (by decide) (by decide) (by decide)
  · exact (c7_single_folder_ingestion emptyStore _).2.1 (by decide)

/-- `load_messages_step` only ever rewrites the `messages` map. -/
theorem load_messages_step_shape (c : Option JVal) (s s' : Store)
    (h : load_messages_step c s = some s') :
    ∃ ms, s' = { s with messages := ms } := by
  unfold load_messages_step at h
  try simp only [] at h
  iterate 10 (all_goals (try split at h))
  all_goals (cases h <;> exact ⟨_, rfl⟩)

theorem append_bulk_msg_shape (s : Store) (m : JVal) (s' : Store)
    (h : append_bulk_msg s m = some s') :
    ∃ ms, s' = { s with messages := ms } := by
  unfold append_bulk_msg at h
  try simp only [] at h
  iterate 10 (all_goals (try split at h))
  all_goals (cases h <;> exact ⟨_, rfl⟩)

theorem append_bulk_msgs_shape (msgs : List JVal) (s s' : Store)
    (h : append_bulk_msgs msgs s = some s') :
    ∃ ms, s' = { s with messages := ms } := by
  induction msgs generalizing s with
  | nil => cases h; exact ⟨_, rfl⟩
  | cons m rest ih =>
    rw [append_bulk_msgs] at h
    obtain ⟨s1, h1, h2⟩ := Option.bind_eq_some.mp h
    obtain ⟨ms1, rfl⟩ := append_bulk_msg_shape s m s1 h1
    obtain ⟨ms2, hms2⟩ := ih _ h2
    exact ⟨ms2, by simp [hms2]⟩

theorem load_all_messages_step_shape (c : Option JVal) (s s' : Store)
    (h : load_all_messages_step c s = some s') :
    ∃ ms, s' = { s with messages := ms } := by
  unfold load_all_messages_step at h
  try simp only [] at h
  iterate 10 (all_goals (try split at h))
  all_goals first
    | (cases h <;> exact ⟨_, rfl⟩)
    | exact append_bulk_msgs_shape _ _ _ h

theorem load_full_message_step_shape (c : Option JVal) (s s' : Store)
    (h : load_full_message_step c s = some s') :
    ∃ fm, s' = { s with full_messages := fm } := by
  unfold load_full_message_step at h
  try simp only [] at h
  iterate 10 (all_goals (try split at h))
  all_goals (cases h <;> exact ⟨_, rfl⟩)

/-- C8: a load never fails because a source file is missing, and each
category whose source is absent keeps its previous in-memory value: absent
`folders.json` leaves `folders` untouched, absent `localstorage_data.json`
leaves `localstorage` untouched, absent `full_message.json` leaves
`full_messages` untouched, and with both message sources absent the
per-folder message map is untouched; with every source absent the load
returns the store unchanged. -/
theorem c8_missing_sources (dir : DataDir) (store st' : Store)
    (h : load_data dir store = some st') :
    (dir.folders_json = none → st'.folders = store.folders) ∧
    (dir.localstorage_json = none → st'.localstorage = store.localstorage) ∧
    (dir.full_message_json = none → st'.full_messages = store.full_messages) ∧
    (dir.messages_json = none → dir.all_messages_json = none →
      st'.messages = store.messages) ∧
    load_data ⟨none, none, none, none, none⟩ store = some store := by
  refine ⟨?_, ?_, ?_, ?_, rfl⟩
  · intro hf
    obtain ⟨s2, hA, h'⟩ := Option.bind_eq_some.mp h
    obtain ⟨s3, hB, h''⟩ := Option.bind_eq_some.mp h'
    obtain ⟨s4, hC, hD⟩ := Option.bind_eq_some.mp h''
    obtain ⟨ms2, rfl⟩ := load_messages_step_shape _ _ _ hA
    obtain ⟨ms3, rfl⟩ := load_all_messages_step_shape _ _ _ hB
    obtain ⟨fm4, rfl⟩ := load_full_message_step_shape _ _ _ hC
    have hst : st' = load_localstorage_step dir.localstorage_json _ := (Option.some.inj hD).symm
    subst hst
    cases hl : dir.localstorage_json <;>
      simp [load_localstorage_step, hf, load_folders_step]
  · intro hl
    obtain ⟨s2, hA, h'⟩ := Option.bind_eq_some.mp h
    obtain ⟨s3, hB, h''⟩ := Option.bind_eq_some.mp h'
    obtain ⟨s4, hC, hD⟩ := Option.bind_eq_some.mp h''
    obtain ⟨ms2, rfl⟩ := load_messages_step_shape _ _ _ hA
    obtain ⟨ms3, rfl⟩ := load_all_messages_step_shape _ _ _ hB
    obtain ⟨fm4, rfl⟩ := load_full_message_step_shape _ _ _ hC
    have hst : st' = load_localstorage_step dir.localstorage_json _ := (Option.some.inj hD).symm
    subst hst
    cases hfj : dir.folders_json <;>
      simp [load_localstorage_step, hl, load_folders_step, hfj]
  · intro hfm
    obtain ⟨s2, hA, h'⟩ := Option.bind_eq_some.mp h
    obtain ⟨s3, hB, h''⟩ := Option.bind_eq_some.mp h'
    obtain ⟨s4, hC, hD⟩ := Option.bind_eq_some.mp h''
    obtain ⟨ms2, rfl⟩ := load_messages_step_shape _ _ _ hA
    obtain ⟨ms3, rfl⟩ := load_all_messages_step_shape _ _ _ hB
    rw [hfm] at hC
    simp only [load_full_message_step] at hC
    have h43 := (Option.some.inj hC).symm
    subst h43
    have hst : st' = load_localstorage_step dir.localstorage_json _ := (Option.some.inj hD).symm
    subst hst
    cases hl : dir.localstorage_json <;> cases hfj : dir.folders_json <;>
      simp [load_localstorage_step, load_folders_step]
  · intro hm ha
    unfold load_data at h
    rw [hm, ha] at h
    simp only [load_messages_step, load_all_messages_step, Option.some_bind] at h
    obtain ⟨s4, hC, hD⟩ := Option.bind_eq_some.mp h
    obtain ⟨fm4, rfl⟩ := load_full_message_step_shape _ _ _ hC
    have hst : st' = load_localstorage_step dir.localstorage_json _ := (Option.some.inj hD).symm
    subst hst
    cases hl : dir.localstorage_json <;> cases hfj : dir.folders_json <;>
      simp [load_localstorage_step, load_folders_step]

/-- Witness for C8: loading a directory holding only a folder fixture into
a populated store changes nothing but `folders`. -/
theorem c8_missing_sources_witness :
    load_data ⟨some exFolderSet, none, none, none, none⟩ exStore7 =
      some ⟨some exFolderSet, [(.int 7, exPage7)], [], none⟩ ∧
    (⟨some exFolderSet, [(.int 7, exPage7)], [], none⟩ : Store).localstorage =
      exStore7.localstorage ∧
    (⟨some exFolderSet, [(.int 7, exPage7)], [], none⟩ : Store).messages =
      exStore7.messages ∧
    (⟨some exFolderSet, [(.int 7, exPage7)], [], none⟩ : Store).full_messages =
      exStore7.full_messages := by
  have hload : load_data ⟨some exFolderSet, none, none, none, none⟩ exStore7 =
      some ⟨some exFolderSet, [(.int 7, exPage7)], [], none⟩ := by decide
  have hc := c8_missing_sources ⟨some exFolderSet, none, none, none, none⟩ exStore7 _ hload
  exact ⟨hload, hc.2.1 rfl, hc.2.2.2.1 rfl rfl, hc.2.2.1 rfl⟩

/-- Python slicing with nonnegative bounds `[start : start + size]` is the
plain drop/take slice. -/
theorem pySlice_nonneg {α : Type} (xs : List α) (start size : Int)
    (h1 : 0 ≤ start) (h2 : 0 ≤ size) :
    pySlice xs start (start + size) = (xs.drop start.toNat).take size.toNat := by
  unfold pySlice pySliceIdx
  have hns : ¬ start < 0 := not_lt.mpr h1
  have hne : ¬ start + size < 0 := by omega
  have hadd : (start + size).toNat = start.toNat + size.toNat := by omega
  simp only [hns, hne, if_false, hadd]
  rcases le_or_lt start.toNat xs.length with hle | hlt
  · rw [min_eq_left hle]
    rw [List.take_eq_take]
    rw [List.length_drop]
    omega
  · have h1' : xs.drop (min start.toNat xs.length) = [] :=
      List.drop_eq_nil_of_le (by omega)
    have h2' : xs.drop start.toNat = [] := List.drop_eq_nil_of_le (by omega)
    rw [h1', h2']
    simp

/-- C1 (amended: the folder id must be nonzero, since Python's truthiness
test `if folder_id` routes folder id `0` to the empty page): for a stored
page container with a `data` sequence, page ≥ 1 and size > 0, the listing
returns the zero-based slice `[(page-1)*size : (page-1)*size + size]` of
the sequence, `count` the number of items in the slice, `first` iff
page = 1, `last` iff the slice's end index reaches the total length, and
echoes the requested page; out-of-range slices yield remainders, never an
error. -/
theorem c1_pagination (store : Store) (fid : Int) (kvs : List (String × JVal))
    (xs : List JVal) (page size : Int) (sort sort_direction : String)
    (hfid : fid ≠ 0)
    (hentry : alookup store.messages (.int fid) = some (.obj kvs))
    (hdata : olookup kvs "data" = some (.arr xs))
    (hpage : 1 ≤ page) (hsize : 0 < size) :
    get_messages store (some fid) page size sort sort_direction =
      some (.obj [("metadata", .obj [("page", .int page),
          ("count", .int (((xs.drop ((page - 1) * size).toNat).take size.toNat).length : Int)),
          ("first", .bool (decide (page = 1))),
          ("last", .bool (decide ((page - 1) * size + size ≥ (xs.length : Int))))]),
        ("data", .arr ((xs.drop ((page - 1) * size).toNat).take size.toNat))]) := by
  have h0 : (0:Int) ≤ (page - 1) * size := mul_nonneg (by omega) (by omega)
  simp only [get_messages, if_neg hfid, hentry, resolveFolderVal, hdata]
  rw [pySlice_nonneg xs _ size h0 (by omega)]

/-- C1 counterexample: folder id `0` holds a page container with one
message, the request `page=1&size=50` satisfies the claim's hypotheses,
yet the handler answers the empty page whose `data` is `[]`, not the
claimed slice `[exMsgA]`. -/
theorem c1_pagination_counterexample :
    alookup exStore0.messages (.int 0) = some exPage0 ∧
    olookup [("data", .arr [exMsgA])] "data" = some (.arr [exMsgA]) ∧
    get_messages exStore0 (some 0) 1 50 "date" "desc" = some (emptyPage 1) ∧
    jget (emptyPage 1) "data" = .arr [] ∧
    ([exMsgA].drop ((1 - 1) * 50 : Int).toNat).take (50 : Int).toNat = [exMsgA] ∧
    JVal.arr [] ≠ .arr [exMsgA] := by decide

/-- Witness for C1: three stored messages, `page=2&size=2` returns the
third message alone, not first, last. -/
theorem c1_pagination_witness :
    get_messages exStore7 (some 7) 2 2 "date" "desc" =
      some (.obj [("metadata", .obj [("page", .int 2), ("count", .int 1),
          ("first", .bool false), ("last", .bool true)]),
        ("data", .arr [exMsgC])]) :=
  c1_pagination exStore7 7 [("data", .arr [exMsgA, exMsgB, exMsgC]), ("metadata", .obj [])]
    [exMsgA, exMsgB, exMsgC] 2 2 "date" "desc" (by decide) (by decide) (by decide)
    (by decide) (by decide)

/-- C4 (amended: a folder id of `0` also yields the empty page, because
Python's `if folder_id` treats `0` as falsy): the empty page is returned
when the folder parameter is absent, zero, or keys no entry; for every
nonzero folder id with an entry the stored value is consulted — paginated
when it is a page container, passed through unmodified in legacy shape. -/
theorem c4_store_dispatch (store : Store) (page size : Int) (sort sort_direction : String) :
    get_messages store none page size sort sort_direction = some (emptyPage page) ∧
    get_messages store (some 0) page size sort sort_direction = some (emptyPage page) ∧
    (∀ fid : Int, fid ≠ 0 → alookup store.messages (.int fid) = none →
      get_messages store (some fid) page size sort sort_direction = some (emptyPage page)) ∧
    (∀ fid : Int, ∀ v, fid ≠ 0 → alookup store.messages (.int fid) = some v →
      get_messages store (some fid) page size sort sort_direction =
        resolveFolderVal v page size) := by
  refine ⟨rfl, by simp [get_messages], ?_, ?_⟩
  · intro fid hf hn
    simp [get_messages, hf, hn]
  · intro fid v hf hv
    simp [get_messages, hf, hv]

/-- C4 counterexample: folder id `0` has an entry in the store, but the
handler returns the empty page instead of the result of consulting the
stored value. -/
theorem c4_store_dispatch_counterexample :
    alookup exStore0.messages (.int 0) = some exPage0 ∧
    get_messages exStore0 (some 0) 1 50 "date" "desc" = some (emptyPage 1) ∧
    resolveFolderVal exPage0 1 50 ≠ some (emptyPage 1) := by decide

/-- Witness for C4 at an absent parameter, an unknown folder, and a known
folder. -/
theorem c4_store_dispatch_witness :
    get_messages exStore7 none 3 50 "date" "desc" = some (emptyPage 3) ∧
    get_messages exStore7 (some 9) 1 50 "date" "desc" = some (emptyPage 1) ∧
    get_messages exStore7 (some 7) 1 50 "date" "desc" = resolveFolderVal exPage7 1 50 :=
  ⟨(c4_store_dispatch exStore7 3 50 "date" "desc").1,
   (c4_store_dispatch exStore7 1 50 "date" "desc").2.2.1 9 (by decide) (by decide),
   (c4_store_dispatch exStore7 1 50 "date" "desc").2.2.2 7 exPage7 (by decide) (by decide)⟩

/-- The inner scan over one folder's `data` list is the first match of the
spec-side predicate, post-processed with the mock body. -/
theorem scanMsgs_eq_find (xs : List JVal) (mid : Int) (h : xs.all WFMsg = true) :
    scanMsgs xs mid = some ((xs.find? (specIdMatches mid)).map (specFound mid)) := by
  induction xs with
  | nil => rfl
  | cons m rest ih =>
    rw [List.all_cons, Bool.and_eq_true] at h
    obtain ⟨hm, hrest⟩ := h
    cases m with
    | obj mkvs =>
      have hc : pyEq (jget (.obj mkvs) "id") (.int mid) = specIdMatches mid (.obj mkvs) := by
        have hm' : (match olookup mkvs "id" with
            | none => true
            | some (.int _) => true
            | some _ => false) = true := hm
        cases hid : olookup mkvs "id" with
        | none => simp [jget, hid, pyEq, JVal.beq, specIdMatches]
        | some w =>
          rw [hid] at hm'
          cases w with
          | int n =>
            by_cases hnm : n = mid
            · subst hnm; simp [jget, hid, pyEq, JVal.beq, specIdMatches]
            · simp [jget, hid, pyEq, JVal.beq, specIdMatches, hnm]
          | null => simp at hm'
          | bool b => simp at hm'
          | str s => simp at hm'
          | arr ys => simp at hm'
          | obj okvs => simp at hm'
      rw [scanMsgs]
      simp only [hc]
      cases hsm : specIdMatches mid (.obj mkvs) with
      | true =>
        simp [List.find?_cons_of_pos _ hsm, specFound]
      | false =>
        rw [List.find?_cons_of_neg _ (by simp [hsm])]
        simpa using ih hrest
    | null => exact absurd hm (by simp [WFMsg])
    | bool b => exact absurd hm (by simp [WFMsg])
    | int n => exact absurd hm (by simp [WFMsg])
    | str s => exact absurd hm (by simp [WFMsg])
    | arr ys => exact absurd hm (by simp [WFMsg])

theorem scanFolders_eq_find (msgs : List (JVal × JVal)) (mid : Int)
    (h : msgs.all (fun p => WFEntry p.2) = true) :
    scanFolders msgs mid =
      some (((pagedData msgs).find? (specIdMatches mid)).map (specFound mid)) := by
  induction msgs with
  | nil => rfl
  | cons p rest ih =>
    rw [List.all_cons, Bool.and_eq_true] at h
    obtain ⟨hp, hrest⟩ := h
    obtain ⟨k, v⟩ := p
    cases v with
    | obj kvs =>
      have hstep : scanFolders ((k, .obj kvs) :: rest) mid =
          (match olookup kvs "data" with
           | some dv =>
             match dv with
             | .arr xs =>
               match scanMsgs xs mid with
               | none => none
               | some (some r) => some (some r)
               | some none => scanFolders rest mid
             | .str "" => scanFolders rest mid
             | .obj [] => scanFolders rest mid
             | _ => none
           | none => scanFolders rest mid) := rfl
      have hpaged : pagedData ((k, .obj kvs) :: rest) =
          (match olookup kvs "data" with
           | some (.arr xs) => xs ++ pagedData rest
           | _ => pagedData rest) := rfl
      have hp' : (match olookup kvs "data" with
          | some (.arr xs) => xs.all WFMsg
          | some _ => false
          | none => true) = true := hp
      rw [hstep, hpaged]
      cases hd : olookup kvs "data" with
      | none => exact ih hrest
      | some dv =>
        rw [hd] at hp'
        cases dv with
        | arr xs =>
          have hxs : xs.all WFMsg = true := hp'
          simp only []
          rw [scanMsgs_eq_find xs mid hxs]
          cases hfind : xs.find? (specIdMatches mid) with
          | some r =>
            have hap : (xs ++ pagedData rest).find? (specIdMatches mid) = some r := by
              rw [List.find?_append, hfind]; rfl
            simp [hap]
          | none =>
            have hap : (xs ++ pagedData rest).find? (specIdMatches mid) =
                (pagedData rest).find? (specIdMatches mid) := by
              rw [List.find?_append, hfind]; rfl
            rw [hap]
            simpa using ih hrest
        | null => simp at hp'
        | bool b => simp at hp'
        | int n => simp at hp'
        | str s => simp at hp'
        | obj okvs => simp at hp'
    | null => exact ih hrest
    | bool b => exact ih hrest
    | int n => exact ih hrest
    | str s => exact ih hrest
    | arr ys => exact ih hrest

/-- C2: the single-message lookup returns the `FullMessagesById` entry
as-is when present; otherwise it returns the first message with the
requested id found scanning the per-folder paged lists, where a mock body
naming the message id is added only when the original lacks a `body` (an
existing body is never overwritten); and when neither source matches it
answers 404 with the "Message not found" error body. -/
theorem c2_get_message (store : Store) (mid : Int) (hwf : WFStore store = true) :
    (∀ v, alookup store.full_messages (.int mid) = some v →
      get_message store mid = some ⟨200, v⟩) ∧
    (alookup store.full_messages (.int mid) = none →
      get_message store mid =
        some (match (pagedData store.messages).find? (specIdMatches mid) with
              | some (.obj kvs) => ⟨200, withMockBody kvs mid⟩
              | _ => ⟨404, notFoundBody⟩)) ∧
    (∀ kvs, (olookup kvs "body").isSome = true → withMockBody kvs mid = .obj kvs) ∧
    (∀ kvs, olookup kvs "body" = none →
      withMockBody kvs mid = .obj (kvs ++ [("body",
        .str ("This is a mock message body for message " ++ toString mid ++ "."))])) := by
  refine ⟨?_, ?_, ?_, ?_⟩
  · intro v hv
    simp [get_message, hv]
  · intro hnone
    simp only [get_message, hnone]
    rw [scanFolders_eq_find store.messages mid hwf]
    cases hfind : (pagedData store.messages).find? (specIdMatches mid) with
    | none => rfl
    | some r =>
      have hr := List.find?_some hfind
      cases r with
      | obj kvs => rfl
      | null => simp [specIdMatches] at hr
      | bool b => simp [specIdMatches] at hr
      | int n => simp [specIdMatches] at hr
      | str s => simp [specIdMatches] at hr
      | arr ys => simp [specIdMatches] at hr
  · intro kvs hb
    rw [withMockBody]
    cases ho : olookup kvs "body" with
    | some w => rfl
    | none => rw [ho] at hb; simp at hb
  · intro kvs hb
    rw [withMockBody, hb]
    rfl

/-- Witness for C2: the full fixture wins for id 11; without it the folder
scan finds id 11 and synthesizes a body naming the id; id 12's captured
body is returned unchanged; id 99 is 404. -/
theorem c2_get_message_witness :
    get_message exFullStore 11 = some ⟨200, exFullMsg⟩ ∧
    get_message exStore7 11 = some ⟨200, .obj [("id", .int 11), ("folder", .int 7),
      ("body", .str "This is a mock message body for message 11.")]⟩ ∧
    get_message exStore7 12 = some ⟨200, exMsgB⟩ ∧
    get_message exStore7 99 = some ⟨404, notFoundBody⟩ := by
  refine ⟨(c2_get_message exFullStore 11 (by decide)).1 exFullMsg (by decide), ?_, ?_, ?_⟩
  · exact (c2_get_message exStore7 11 (by decide)).2.1 (by decide)
  · exact (c2_get_message exStore7 12 (by decide)).2.1 (by decide)
  · exact (c2_get_message exStore7 99 (by decide)).2.1 (by decide)

/-- C10: only mapping entries carrying a `data` key are searched by the
fallback scan: when the id is absent from `FullMessagesById` and no paged
entry's `data` holds a matching message, the handler answers 404 — even
when the id occurs somewhere inside a legacy-shaped entry. -/
theorem c10_legacy_not_searched (store : Store) (mid : Int)
    (hfull : alookup store.full_messages (.int mid) = none)
    (hwf : WFStore store = true)
    (hnone : ∀ m ∈ pagedData store.messages, specIdMatches mid m = false) :
    get_message store mid = some ⟨404, notFoundBody⟩ := by
  have hfind : (pagedData store.messages).find? (specIdMatches mid) = none :=
    List.find?_eq_none.mpr (by intro m hm; simp [hnone m hm])
  simp only [get_message, hfull]
  rw [scanFolders_eq_find store.messages mid hwf, hfind]
  rfl

/-- Witness for C10: id 11 sits inside a mapping entry without a `data`
key and id 12 inside a bare-list entry; both lookups answer 404. -/
theorem c10_legacy_not_searched_witness :
    get_message exLegacyStore 11 = some ⟨404, notFoundBody⟩ ∧
    get_message exLegacyStore 12 = some ⟨404, notFoundBody⟩ :=
  ⟨c10_legacy_not_searched exLegacyStore 11 (by decide) (by decide) (by decide),
   c10_legacy_not_searched exLegacyStore 12 (by decide) (by decide) (by decide)⟩

/-- C3: reloading an unchanged bulk `all_messages.json` export is NOT
idempotent: the grouping loop finds the folder entry created by the first
load already present and appends every message again, duplicating the
folder's `data` instead of replacing the category's content. -/
theorem c3_reload_duplicates :
    load_data exBulkDir emptyStore =
      some ⟨none, [(.int 7, .obj [("data", .arr [exBulkMsg]), ("metadata", .obj [])])],
        [], none⟩ ∧
    (load_data exBulkDir emptyStore).bind (load_data exBulkDir) =
      some ⟨none, [(.int 7, .obj [("data", .arr [exBulkMsg, exBulkMsg]), ("metadata", .obj [])])],
        [], none⟩ ∧
    (⟨none, [(.int 7, .obj [("data", .arr [exBulkMsg, exBulkMsg]), ("metadata", .obj [])])],
        [], none⟩ : Store) ≠
      ⟨none, [(.int 7, .obj [("data", .arr [exBulkMsg]), ("metadata", .obj [])])], [], none⟩ := by
  decide
